import Mathlib

/-!
# Verification of the Riemann monitoring scripts

A shallow embedding of the Python monitoring scripts in this repository
(src/monitor.py, src/scripts/disk-monitor.py, src/scripts/disk-monitor-fixed.py,
src/scripts/influxdb-bridge.py, src/scripts/backup-data-forwarder.py,
src/scripts/graphrag-monitor.py, src/scripts/system-monitor.py), together with
theorems settling the specification claims about them.

Modelling conventions:
* Python numbers (floats and ints) are modelled as rationals (`ℚ`); the
  float literals appearing in the scripts (0.90, 0.80, 100.0, ...) are taken
  at their decimal value.  No claim here depends on binary rounding.
* I/O is made explicit: every function that reads the clock, the disk, or the
  network takes the outcome of that external interaction as an argument
  (an `Except` value for calls that can raise), and returns the trace of the
  requests it performs alongside its Python return value.
* A Python `dict` record with optional keys is a structure of `Option` fields;
  subscripting (`d[k]`) is an `Except` lookup that can raise `KeyError`,
  `d.get(k, v)` is `Option.getD`.
-/

/-- The Python exceptions distinguished by this embedding. -/
inductive PyExc
  | keyError
  | valueError
  | attributeError
  | connectionError
  deriving DecidableEq, Repr

/-- Python `int(x)` on a number: truncation toward zero. -/
def pyInt (q : ℚ) : ℤ :=
  if 0 ≤ q then ⌊q⌋ else ⌈q⌉

/-- `str.replace` for a one-character pattern: replace every occurrence of
character `a` by character `b`. -/
def replaceChar (a b : Char) (s : String) : String :=
  String.mk (s.data.map (fun c => if c = a then b else c))

/- ---------------------------------------------------------------------------
disk-monitor.py / disk-monitor-fixed.py : the disk state threshold policy
--------------------------------------------------------------------------- -/

/-- The three disk states produced by the threshold policy of the disk
monitors. -/
inductive DiskState
  | ok
  | warning
  | critical
  deriving DecidableEq, Repr

/-- Severity rank of a disk state (`ok` < `warning` < `critical`), used to
state monotonicity of the threshold policy. -/
def DiskState.rank : DiskState → Nat
  | .ok => 0
  | .warning => 1
  | .critical => 2

/-- The threshold policy inlined in `get_disk_usage` of both
src/scripts/disk-monitor.py (lines 50-56) and
src/scripts/disk-monitor-fixed.py (lines 25-31):
`if usage_percent >= 0.90: critical elif usage_percent >= 0.80: warning
else: ok`. -/
def classify (u : ℚ) : DiskState :=
  if u ≥ 0.90 then .critical
  else if u ≥ 0.80 then .warning
  else .ok

/-- C1: the disk-state threshold function is exact at its boundaries —
`classify u` is critical iff `u ≥ 0.90`, warning iff `0.80 ≤ u < 0.90`,
ok iff `u < 0.80`; in particular `classify 0.80 = warning`,
`classify 0.899 = warning`, `classify 0.90 = critical`,
`classify 0.79 = ok`; and the state is monotone non-decreasing in `u`. -/
theorem classify_exact_boundaries_and_monotone :
    (∀ u : ℚ, classify u = .critical ↔ u ≥ 0.90) ∧
    (∀ u : ℚ, classify u = .warning ↔ 0.80 ≤ u ∧ u < 0.90) ∧
    (∀ u : ℚ, classify u = .ok ↔ u < 0.80) ∧
    classify 0.80 = .warning ∧
    classify 0.899 = .warning ∧
    classify 0.90 = .critical ∧
    classify 0.79 = .ok ∧
    (∀ u v : ℚ, u ≤ v → (classify u).rank ≤ (classify v).rank) := by
  refine ⟨?_, ?_, ?_, ?_, ?_, ?_, ?_, ?_⟩
  · intro u
    unfold classify
    split_ifs with h1 h2 <;> simp_all
  · intro u
    unfold classify
    split_ifs with h1 h2 <;> simp_all
  · intro u
    unfold classify
    split_ifs with h1 h2 <;> simp_all
    linarith
  · unfold classify
    norm_num
  · unfold classify
    norm_num
  · unfold classify
    norm_num
  · unfold classify
    norm_num
  · intro u v huv
    unfold classify
    split_ifs with h1 h2 h3 h4 h5 <;> simp [DiskState.rank] <;> linarith

/-- Witness for C1: the monotonicity clause applied at the concrete pair
`0 ≤ 1`. -/
theorem classify_exact_boundaries_and_monotone_witness :
    (classify 0).rank ≤ (classify 1).rank :=
  classify_exact_boundaries_and_monotone.2.2.2.2.2.2.2 0 1 (by decide)

/- ---------------------------------------------------------------------------
Rendering of numbers into the payload strings
--------------------------------------------------------------------------- -/

/-- The character of one decimal digit. -/
def digChar : Nat → Char
  | 0 => '0'
  | 1 => '1'
  | 2 => '2'
  | 3 => '3'
  | 4 => '4'
  | 5 => '5'
  | 6 => '6'
  | 7 => '7'
  | 8 => '8'
  | 9 => '9'
  | _ => '*'

/-- Decimal digits of a natural number, most significant digit first.
Fuel-based structural recursion, so that the kernel can evaluate it; any
fuel of at least `n + 1` yields all digits. -/
def natDigsAux : Nat → Nat → List Char
  | 0, _ => []
  | fuel + 1, n =>
    if n < 10 then [digChar n]
    else natDigsAux fuel (n / 10) ++ [digChar (n % 10)]

/-- Decimal string of a natural number. -/
def natStr (n : Nat) : String :=
  String.mk (natDigsAux (n + 1) n)

/-- Decimal string of an integer. -/
def intStr (i : ℤ) : String :=
  if i < 0 then "-" ++ natStr i.natAbs else natStr i.natAbs

/-- The smallest exponent `k ≤ 17` such that `q * 10 ^ k` is an integer,
if one exists. -/
def decExp (q : ℚ) : Option Nat :=
  (List.range 18).find? (fun k => (q * 10 ^ k).den == 1)

/-- The digit list of `n`, left-padded with character zeros to length at
least `k + 1`. -/
def dsPad (n k : Nat) : List Char :=
  if (natDigsAux (n + 1) n).length < k + 1 then
    List.replicate (k + 1 - (natDigsAux (n + 1) n).length) '0' ++
      natDigsAux (n + 1) n
  else natDigsAux (n + 1) n

/-- Decimal rendering of a number whose magnitude is `n / 10 ^ k`: sign,
integer digits, point, then the last `k` digits. -/
def decStr (neg : Bool) (n k : Nat) : String :=
  (if neg then "-" else "") ++
    String.mk ((dsPad n k).take ((dsPad n k).length - k)) ++ "." ++
    String.mk ((dsPad n k).drop ((dsPad n k).length - k))

/-- Python `str()` of the numeric values occurring in the scripts, modelled
on rationals: integers render without a decimal point; a number with a short
finite decimal expansion renders as sign, integer digits, point, fraction
digits.  This abstracts CPython float repr (shortest decimal round-trip);
no claim depends on the digits chosen.  A rational without a short decimal
expansion cannot arise as a CPython float value; such values render as
`num/den` here. -/
def pyStr (q : ℚ) : String :=
  if q.den = 1 then intStr q.num
  else
    match decExp q with
    | some k => decStr (decide (q < 0)) (q * 10 ^ k).num.natAbs k
    | none => intStr q.num ++ "/" ++ natStr q.den

theorem digChar_ne_newline (n : Nat) : digChar n ≠ '\n' := by
  unfold digChar
  split <;> decide

theorem natDigsAux_no_newline (fuel n : Nat) : '\n' ∉ natDigsAux fuel n := by
  induction fuel generalizing n with
  | zero => simp [natDigsAux]
  | succ fuel ih =>
    unfold natDigsAux
    split_ifs
    · intro h
      rcases List.mem_singleton.mp h with h
      exact digChar_ne_newline n h.symm
    · intro h
      rcases List.mem_append.mp h with h | h
      · exact ih (n / 10) h
      · exact digChar_ne_newline (n % 10) (List.mem_singleton.mp h).symm

theorem natStr_no_newline (n : Nat) : '\n' ∉ (natStr n).data :=
  natDigsAux_no_newline (n + 1) n

theorem intStr_no_newline (i : ℤ) : '\n' ∉ (intStr i).data := by
  unfold intStr
  split_ifs
  · intro h
    rcases List.mem_append.mp h with h | h
    · simp at h
    · exact natStr_no_newline _ h
  · exact natStr_no_newline _

theorem dsPad_no_newline (n k : Nat) : '\n' ∉ dsPad n k := by
  unfold dsPad
  split_ifs
  · intro h
    rcases List.mem_append.mp h with h | h
    · have := List.eq_of_mem_replicate h
      simp at this
    · exact natDigsAux_no_newline _ _ h
  · exact natDigsAux_no_newline _ _

theorem decStr_no_newline (neg : Bool) (n k : Nat) :
    '\n' ∉ (decStr neg n k).data := by
  unfold decStr
  intro h
  simp only [String.data_append, List.mem_append] at h
  rcases h with ((h | h) | h) | h
  · revert h
    cases neg <;> simp
  · exact dsPad_no_newline n k (List.take_subset _ _ h)
  · simp at h
  · exact dsPad_no_newline n k (List.drop_subset _ _ h)

theorem pyStr_no_newline (q : ℚ) : '\n' ∉ (pyStr q).data := by
  unfold pyStr
  split_ifs with h1
  · exact intStr_no_newline _
  · cases hd : decExp q with
    | some k =>
      simp only [hd]
      exact decStr_no_newline _ _ _
    | none =>
      simp only [hd]
      intro hmem
      simp only [String.data_append, List.mem_append] at hmem
      rcases hmem with (hmem | hmem) | hmem
      · exact intStr_no_newline _ hmem
      · simp at hmem
      · exact natStr_no_newline _ hmem

/- ---------------------------------------------------------------------------
disk-monitor.py : send_to_riemann and get_disk_usage
--------------------------------------------------------------------------- -/

/-- The string of a disk state as the scripts spell it. -/
def DiskState.str : DiskState → String
  | .ok => "ok"
  | .warning => "warning"
  | .critical => "critical"

/-- Attribute lookup on the Python `socket` module, restricted to the names
this repository touches, with their CPython values on Linux.  The name
`SOCK_TCP` is not defined by the `socket` module, so looking it up raises
`AttributeError` — which is exactly what line 15 of
src/scripts/disk-monitor.py does
(`sock = socket.socket(socket.AF_INET, socket.SOCK_TCP)`). -/
def socketGetAttr : String → Except PyExc Nat
  | "AF_INET" => .ok 2
  | "SOCK_STREAM" => .ok 1
  | "SOCK_DGRAM" => .ok 2
  | _ => .error .attributeError

/-- A Riemann event as built by `send_to_riemann` in
src/scripts/disk-monitor.py (lines 17-26).  The free-text `description`
argument (a %.1f-formatted string) carries no claim-relevant information and
is not modelled. -/
structure REvent where
  service : String
  metric : ℚ
  state : String
  tags : List String
  host : String
  time : ℤ
  deriving DecidableEq, Repr

/-- Trace of calls to `send_to_riemann`: the events the script passed to the
function, and the events that were actually written to the Riemann socket. -/
structure SendTrace where
  attempted : List REvent
  delivered : List REvent
  deriving DecidableEq, Repr

instance : Append SendTrace :=
  ⟨fun a b => ⟨a.attempted ++ b.attempted, a.delivered ++ b.delivered⟩⟩

theorem SendTrace.append_attempted (a b : SendTrace) :
    (a ++ b).attempted = a.attempted ++ b.attempted := rfl

theorem SendTrace.append_delivered (a b : SendTrace) :
    (a ++ b).delivered = a.delivered ++ b.delivered := rfl

/-- State of the external network: whether a TCP connection to the Riemann
server at localhost:5555 would succeed. -/
structure RiemannNet where
  connectOk : Bool

/-- `send_to_riemann` of src/scripts/disk-monitor.py (lines 9-36).  The body
runs under try/except.  Its first statement evaluates `socket.SOCK_TCP`, an
attribute the `socket` module does not define, so every call raises
`AttributeError`, which the except branch swallows after printing an error
message; no event is ever written to the socket.  The unreachable success
path is still modelled for faithfulness. -/
def send_to_riemann (net : RiemannNet) (now : ℤ) (service : String)
    (value : ℚ) (state : String) (tags : List String) : SendTrace :=
  let e : REvent :=
    { service := service, metric := value, state := state,
      tags := tags, host := "trust-server", time := now }
  { attempted := [e],
    delivered :=
      match socketGetAttr "SOCK_TCP" with
      | .error _ => []
      | .ok _ => if net.connectOk then [e] else [] }

/-- `get_disk_usage` of src/scripts/disk-monitor.py (lines 38-75).  The
outcome of `shutil.disk_usage` is the `disk` argument: either the triple
(total, used, free) in bytes, or the message of the raised exception.  On
success four metrics are sent; on an exception the except branch sends the
sentinel `disk.root.error = 1` with state critical. -/
def get_disk_usage (net : RiemannNet) (now : ℤ)
    (disk : Except String (ℚ × ℚ × ℚ)) : SendTrace :=
  match disk with
  | .ok (total, used, free) =>
    let total_gb := total / 1024 ^ 3
    let used_gb := used / 1024 ^ 3
    let free_gb := free / 1024 ^ 3
    let usage_percent := if total > 0 then used / total else 0
    let state := (classify usage_percent).str
    send_to_riemann net now "disk.root.usage.percent" usage_percent state
        ["disk", "usage"] ++
      send_to_riemann net now "disk.root.free.gb" free_gb "ok"
        ["disk", "free"] ++
      send_to_riemann net now "disk.root.used.gb" used_gb "ok"
        ["disk", "used"] ++
      send_to_riemann net now "disk.root.total.gb" total_gb "ok"
        ["disk", "total"]
  | .error _msg =>
    send_to_riemann net now "disk.root.error" 1 "critical" ["disk", "error"]

/-- C2 (code bug): when reading disk usage raises, `get_disk_usage` passes
the sentinel event (service `disk.root.error`, metric 1, state critical) to
`send_to_riemann` — but `send_to_riemann` never delivers any event to the
Riemann server, because its `socket.SOCK_TCP` lookup raises
`AttributeError` on every call (the fixed variant disk-monitor-fixed.py uses
a real TCP transport instead).  The failure is surfaced only as an attempted
event; nothing is ever delivered, on this or any other input. -/
theorem disk_error_sentinel_attempted_never_delivered
    (net : RiemannNet) (now : ℤ) (msg : String) :
    ((get_disk_usage net now (.error msg)).attempted =
      [{ service := "disk.root.error", metric := 1, state := "critical",
         tags := ["disk", "error"], host := "trust-server", time := now }]) ∧
    (∀ disk, (get_disk_usage net now disk).delivered = []) := by
  constructor
  · rfl
  · intro disk
    match disk with
    | .error msg => rfl
    | .ok (total, used, free) => rfl

/- ---------------------------------------------------------------------------
influxdb-bridge.py : riemann_event_to_influx_line and send_to_influxdb
--------------------------------------------------------------------------- -/

/-- The character set kept by the name cleaning of influxdb-bridge.py line 23
(`c.isalnum() or c == '_'`).  `Char.isAlphanum` models the Python `isalnum`
method; the service names in this repository are ASCII. -/
def keepChar (c : Char) : Bool :=
  c.isAlphanum || c == '_'

/-- The measurement-name cleaning of `riemann_event_to_influx_line`
(influxdb-bridge.py lines 21-23): replace spaces by underscores, then dashes
by underscores, then keep only alphanumeric characters and underscores. -/
def cleanMeasurement (s : String) : String :=
  String.mk ((replaceChar '-' '_' (replaceChar ' ' '_' s)).data.filter keepChar)

/-- `riemann_event_to_influx_line` of influxdb-bridge.py (lines 19-27):
one line of InfluxDB line protocol, `measurement,host=... value=... ns`,
where the timestamp argument is in seconds and is scaled to integer
nanoseconds via `int(timestamp * 1000000000)`. -/
def riemann_event_to_influx_line (service host : String) (metric ts : ℚ) :
    String :=
  cleanMeasurement service ++ ",host=" ++ host ++ " value=" ++ pyStr metric ++
    " " ++ intStr (pyInt (ts * 1000000000))

/-- The InfluxDB write endpoint of influxdb-bridge.py (line 17), with the
query parameters db, u, p. -/
def INFLUXDB_URL : String :=
  "http://localhost:8086/write?db=riemann&u=riemann&p=riemann"

/-- One HTTP POST: the target URL and the request body. -/
structure HttpPost where
  url : String
  body : String
  deriving DecidableEq, Repr

/-- `send_to_influxdb` of influxdb-bridge.py (lines 29-41): POST the line to
`INFLUXDB_URL`; return True iff the response status is 204; any exception
from `requests.post` is caught and yields False.  `resp` is the outcome of
the POST: a status code, or the message of the raised exception.  The second
component is the trace of POSTs performed. -/
def send_to_influxdb (resp : Except String Nat) (line : String) :
    Bool × List HttpPost :=
  (match resp with
   | .ok status => status == 204
   | .error _ => false,
   [⟨INFLUXDB_URL, line⟩])

/-- C4: the HTTP write to the metrics database succeeds iff the status is
204 — `send_to_influxdb` performs exactly one POST, to the write endpoint
with query parameters db, u, p and the line-protocol body, and returns True
iff that POST yields status 204 (False on every other status and on every
connection exception). -/
theorem send_to_influxdb_success_iff_204 (resp : Except String Nat)
    (line : String) :
    ((send_to_influxdb resp line).1 = true ↔ resp = .ok 204) ∧
    (send_to_influxdb resp line).2 = [⟨INFLUXDB_URL, line⟩] ∧
    INFLUXDB_URL = "http://localhost:8086/write?db=riemann&u=riemann&p=riemann" := by
  refine ⟨?_, rfl, rfl⟩
  cases resp with
  | error msg => simp [send_to_influxdb]
  | ok status => simp [send_to_influxdb]

/- ---------------------------------------------------------------------------
C7 : idempotence of the name sanitizers
--------------------------------------------------------------------------- -/

theorem keepChar_not_space {c : Char} (hc : keepChar c = true) : c ≠ ' ' := by
  intro h
  subst h
  revert hc
  decide

theorem keepChar_not_dash {c : Char} (hc : keepChar c = true) : c ≠ '-' := by
  intro h
  subst h
  revert hc
  decide

theorem filter_map_fixed (p : Char → Bool) (f : Char → Char)
    (h : ∀ c, p c = true → f c = c) (l : List Char) :
    ((l.filter p).map f).filter p = l.filter p := by
  induction l with
  | nil => rfl
  | cons c t ih =>
    cases hc : p c with
    | true => simp [List.filter_cons, hc, h c hc, ih]
    | false => simp [List.filter_cons, hc, ih]

/-- C7: both name sanitizers implemented by the encoders are idempotent —
the space/dash replacement plus alphanumeric filter of
`riemann_event_to_influx_line` (influxdb-bridge.py lines 21-23) and the dot
replacement of `create_line_protocol` (backup-data-forwarder.py line 63). -/
theorem sanitize_idempotent :
    (∀ s : String, cleanMeasurement (cleanMeasurement s) = cleanMeasurement s) ∧
    (∀ s : String, replaceChar '.' '_' (replaceChar '.' '_' s) =
      replaceChar '.' '_' s) := by
  constructor
  · intro s
    unfold cleanMeasurement replaceChar
    simp only [List.map_map]
    congr 1
    exact filter_map_fixed keepChar _
      (fun c hc => by
        have h1 : c ≠ ' ' := keepChar_not_space hc
        have h2 : c ≠ '-' := keepChar_not_dash hc
        simp [Function.comp, h1, h2])
      (List.map _ s.data)
  · intro s
    unfold replaceChar
    simp only [List.map_map]
    congr 1
    apply List.map_congr_left
    intro c _
    by_cases h : c = '.'
    · simp [Function.comp, h]
    · simp [Function.comp, h]

/- ---------------------------------------------------------------------------
A model of the Python datetime values used by backup-data-forwarder.py
--------------------------------------------------------------------------- -/

/-- A Python `datetime` value: civil components plus an optional UTC offset
in minutes (the datetime is aware iff the offset is present). -/
structure PyDateTime where
  year : Nat
  month : Nat
  day : Nat
  hour : Nat
  minute : Nat
  second : Nat
  usecond : Nat
  tzOffMin : Option Int
  deriving DecidableEq, Repr

/-- Gregorian leap year. -/
def isLeap (y : Nat) : Bool :=
  (y % 4 == 0 && !(y % 100 == 0)) || y % 400 == 0

/-- Days in a month of the proleptic Gregorian calendar. -/
def daysInMonth (y m : Nat) : Nat :=
  if m = 2 then (if isLeap y then 29 else 28)
  else if m = 4 || m = 6 || m = 9 || m = 11 then 30
  else 31

/-- Days from year 1 (January 1 of year 1 is day 0) to January 1 of year
`y`. -/
def daysBeforeYear (y : Nat) : Nat :=
  365 * (y - 1) + (y - 1) / 4 - (y - 1) / 100 + (y - 1) / 400

/-- Days from January 1 to the first day of month `m` in year `y`. -/
def daysBeforeMonth (y m : Nat) : Nat :=
  ((List.range (m - 1)).map (fun i => daysInMonth y (i + 1))).sum

/-- Days between the Unix epoch and the civil date y-m-d (negative before
1970). -/
def epochDays (y m d : Nat) : Int :=
  (daysBeforeYear y + daysBeforeMonth y m + (d - 1) : Nat) -
    (daysBeforeYear 1970 : Nat)

/-- The `datetime.timestamp()` method: seconds since the Unix epoch as an
exact rational.  An aware datetime subtracts its own UTC offset; CPython
interprets a naive datetime in the local timezone, whose offset in minutes
is the explicit model parameter `localOffMin`. -/
def pyTimestamp (dt : PyDateTime) (localOffMin : Int) : ℚ :=
  let days : Int := epochDays dt.year dt.month dt.day
  let secs : Int := 86400 * days + 3600 * dt.hour + 60 * dt.minute + dt.second
  let off : Int := 60 * (dt.tzOffMin.getD localOffMin)
  ((secs - off : Int) : ℚ) + (dt.usecond : ℚ) / 1000000

/-- The numeric value of a decimal digit character. -/
def digitVal (c : Char) : Option Nat :=
  if c.isDigit then some (c.toNat - 48) else none

/-- Read exactly `n` decimal digits from the front of the list, returning
their value and the rest. -/
def readDigits : Nat → Nat → List Char → Option (Nat × List Char)
  | 0, acc, l => some (acc, l)
  | n + 1, acc, l =>
    match l with
    | [] => none
    | c :: t =>
      match digitVal c with
      | some d => readDigits n (10 * acc + d) t
      | none => none

/-- Expect one specific character at the front of the list. -/
def expectChar (c : Char) : List Char → Option (List Char)
  | [] => none
  | x :: t => if x = c then some t else none

/-- Parse the optional trailing UTC offset `±HH:MM`. -/
def parseTzPart (l : List Char) : Option (Option Int × List Char) :=
  match l with
  | [] => some (none, [])
  | s :: t =>
    if s = '+' || s = '-' then
      match readDigits 2 0 t with
      | none => none
      | some (oh, t) =>
        match expectChar ':' t with
        | none => none
        | some t =>
          match readDigits 2 0 t with
          | none => none
          | some (om, t) =>
            if oh < 24 && om < 60 then
              let mins : Int := (oh * 60 + om : Nat)
              some (some (if s = '-' then -mins else mins), t)
            else none
    else none

/-- Parse the optional fraction part `.ffffff` (six digits, as produced by
`isoformat` for a microsecond-precision datetime). -/
def parseFracPart (l : List Char) : Option (Nat × List Char) :=
  match l with
  | '.' :: t =>
    (match readDigits 6 0 t with
     | none => none
     | some (us, t) => some (us, t))
  | _ => some (0, l)

/-- Parse the optional seconds part `:SS`. -/
def parseSecPart (l : List Char) : Option (Nat × List Char) :=
  match l with
  | ':' :: t =>
    (match readDigits 2 0 t with
     | none => none
     | some (sec, t) => some (sec, t))
  | _ => some (0, l)

/-- The `datetime.fromisoformat` class method, modelled on the grammar of
`isoformat` output, the only strings this repository feeds it:
`YYYY-MM-DD[*HH:MM[:SS[.ffffff]][+HH:MM]]` with separator `T` or space.
Malformed strings yield `none` (Python raises `ValueError`). -/
def fromisoformat (s : String) : Option PyDateTime := Id.run do
  let l := s.data
  let some (y, l) := readDigits 4 0 l | none
  let some l := expectChar '-' l | none
  let some (mo, l) := readDigits 2 0 l | none
  let some l := expectChar '-' l | none
  let some (d, l) := readDigits 2 0 l | none
  let valid := 1 ≤ y && 1 ≤ mo && mo ≤ 12 && 1 ≤ d && d ≤ daysInMonth y mo
  match l with
  | [] =>
    if valid then some ⟨y, mo, d, 0, 0, 0, 0, none⟩ else none
  | sep :: l =>
    if sep = 'T' || sep = ' ' then
      let some (h, l) := readDigits 2 0 l | none
      let some l := expectChar ':' l | none
      let some (mi, l) := readDigits 2 0 l | none
      let some (sec, l) := parseSecPart l | none
      let some (us, l) := parseFracPart l | none
      let some (tz, l) := parseTzPart l | none
      if l.isEmpty && valid && h < 24 && mi < 60 && sec < 60 then
        some ⟨y, mo, d, h, mi, sec, us, tz⟩
      else none
    else none

/-- The `timestamp.replace` call of backup-data-forwarder.py line 69:
replace every occurrence of `Z` by `+00:00`. -/
def replaceZ (s : String) : String :=
  String.mk (s.data.bind (fun c => if c = 'Z' then "+00:00".data else [c]))

/- ---------------------------------------------------------------------------
backup-data-forwarder.py : create_line_protocol and the forwarding sinks
--------------------------------------------------------------------------- -/

/-- Configuration constants of backup-data-forwarder.py (lines 13-18). -/
def LOCAL_INFLUXDB : String := "http://localhost:8086"

def EXTERNAL_GRAFANA : String := "http://monitor.trustblocks.com"

def EXTERNAL_INFLUXDB : String := "http://monitor.trustblocks.com/influxdb"

def DATABASE : String := "riemann"

def USERNAME : String := "riemann"

def PASSWORD : String := "riemann"

/-- A backup metric record as assembled by `get_local_backup_metrics` from
an InfluxDB query result: a Python dict whose keys may or may not be
present.  `measurement` is read with subscripting (raising `KeyError` when
absent); the other fields are read with `.get` and a default. -/
structure Metric where
  measurement : Option String
  host : Option String
  value : Option ℚ
  time : Option String
  deriving DecidableEq, Repr

/-- `create_line_protocol` of backup-data-forwarder.py (lines 61-76).
`nowIso` is the string `datetime.now().isoformat()` would produce at the
moment of the call (the default used when the record has no `time` key);
`localOffMin` is the local UTC offset in minutes, used by `timestamp()` for
naive datetimes.  Raises `KeyError` when the record has no measurement and
`ValueError` when its time string is not ISO-8601. -/
def create_line_protocol (localOffMin : Int) (nowIso : String) (m : Metric) :
    Except PyExc String :=
  match m.measurement with
  | none => .error .keyError
  | some meas =>
    let measurement := replaceChar '.' '_' meas
    let host := m.host.getD "trust-server"
    let value := m.value.getD 0
    let timestamp := m.time.getD nowIso
    match fromisoformat
        (if 'Z' ∈ timestamp.data then replaceZ timestamp else timestamp) with
    | none => .error .valueError
    | some dt =>
      let timestamp_ns := pyInt (pyTimestamp dt localOffMin * 1000000000)
      .ok (measurement ++ ",host=" ++ host ++ " value=" ++ pyStr value ++
        " " ++ intStr timestamp_ns)

/-- The three write endpoints `send_to_external_influxdb` tries, in order
(backup-data-forwarder.py lines 84-88).  The first two interpolate to the
same URL. -/
def endpoints_to_try : List String :=
  [EXTERNAL_INFLUXDB ++ "/write?db=" ++ DATABASE ++ "&u=" ++ USERNAME ++
     "&p=" ++ PASSWORD,
   EXTERNAL_GRAFANA ++ "/influxdb/write?db=" ++ DATABASE ++ "&u=" ++
     USERNAME ++ "&p=" ++ PASSWORD,
   EXTERNAL_GRAFANA ++ ":8086/write?db=" ++ DATABASE ++ "&u=" ++ USERNAME ++
     "&p=" ++ PASSWORD]

/-- Responses of the external Grafana used by the fallback path: the
response to the login POST, and the response to the k-th annotation POST
(an `Except.error` models a raised requests exception). -/
structure GrafanaEnv where
  login : Except String Nat
  annResp : Nat → Except String Nat

/-- The text of the annotation built for one metric
(backup-data-forwarder.py line 147): `metric['measurement']` raises
`KeyError` when absent. -/
def annText (m : Metric) : Except PyExc String :=
  match m.measurement with
  | none => .error .keyError
  | some meas => .ok (meas ++ ": " ++ pyStr (m.value.getD 0))

/-- The annotation loop of `forward_via_grafana_api` over the first five
metrics: each iteration builds the annotation text (which can raise
`KeyError`) and POSTs it; a raised POST exception aborts the loop and the
enclosing function returns False; response statuses are otherwise only
printed.  Returns the Python result and the annotation POSTs performed. -/
def grafanaLoop (env : GrafanaEnv) : Nat → List Metric → Bool × List HttpPost
  | _, [] => (true, [])
  | k, m :: rest =>
    match annText m with
    | .error _ => (false, [])
    | .ok text =>
      let post : HttpPost := ⟨EXTERNAL_GRAFANA ++ "/api/annotations", text⟩
      match env.annResp k with
      | .error _ => (false, [post])
      | .ok _ =>
        ((grafanaLoop env (k + 1) rest).1,
          post :: (grafanaLoop env (k + 1) rest).2)

/-- `forward_via_grafana_api` of backup-data-forwarder.py (lines 126-165):
log in to the external Grafana (credentials admin/riemann123, body modelled
by its user field), then create one annotation per metric for at most the
first five metrics; returns True once the loop finishes, False when the
login fails or any step raises. -/
def forward_via_grafana_api (env : GrafanaEnv) (metrics : List Metric) :
    Bool × List HttpPost :=
  let loginPost : HttpPost := ⟨EXTERNAL_GRAFANA ++ "/login", "admin"⟩
  match env.login with
  | .error _ => (false, [loginPost])
  | .ok status =>
    if status ≠ 200 then (false, [loginPost])
    else
      ((grafanaLoop env 0 (metrics.take 5)).1,
        loginPost :: (grafanaLoop env 0 (metrics.take 5)).2)

/-- The endpoint loop of `send_to_external_influxdb` (lines 91-111): POST
the payload to each endpoint in turn, stopping at the first status 204;
non-204 statuses and raised exceptions both continue with the next
endpoint.  `envSeq k` is the outcome of the k-th POST performed by this
call. -/
def tryEndpoints (envSeq : Nat → Except String Nat) (data : String) :
    Nat → List String → Bool × List HttpPost
  | _, [] => (false, [])
  | k, ep :: rest =>
    let post : HttpPost := ⟨ep, data⟩
    match envSeq k with
    | .ok status =>
      if status = 204 then (true, [post])
      else ((tryEndpoints envSeq data (k + 1) rest).1,
        post :: (tryEndpoints envSeq data (k + 1) rest).2)
    | .error _ =>
      ((tryEndpoints envSeq data (k + 1) rest).1,
        post :: (tryEndpoints envSeq data (k + 1) rest).2)

/-- The value and request trace of one `send_to_external_influxdb` call:
the Python return value, the line-protocol POSTs to the InfluxDB write
endpoints, and the POSTs of the Grafana fallback. -/
structure FwdResult where
  result : Bool
  influxPosts : List HttpPost
  grafPosts : List HttpPost
  deriving DecidableEq, Repr

/-- `send_to_external_influxdb` of backup-data-forwarder.py (lines 78-124):
an empty metrics list returns True at once; otherwise the metrics are
encoded (a raised encoding error is caught by the outer except and yields
False), the payload is POSTed to up to three endpoints, and if none returns
204 the function falls back to `forward_via_grafana_api`. -/
def send_to_external_influxdb (localOffMin : Int) (nowIso : String)
    (envSeq : Nat → Except String Nat) (genv : GrafanaEnv)
    (metrics : List Metric) : FwdResult :=
  if metrics.isEmpty then ⟨true, [], []⟩
  else
    match metrics.mapM (create_line_protocol localOffMin nowIso) with
    | .error _ => ⟨false, [], []⟩
    | .ok lines =>
      let data := String.intercalate "\n" lines
      let r := tryEndpoints envSeq data 0 endpoints_to_try
      if r.1 then ⟨true, r.2, []⟩
      else ⟨(forward_via_grafana_api genv metrics).1, r.2,
        (forward_via_grafana_api genv metrics).2⟩

/-- The string handed to `fromisoformat` by `create_line_protocol` for the
record `m`: its time value (or the clock reading `nowIso` when absent),
with `Z` rewritten to `+00:00`. -/
def timeArg (nowIso : String) (m : Metric) : String :=
  if 'Z' ∈ (m.time.getD nowIso).data then replaceZ (m.time.getD nowIso)
  else m.time.getD nowIso

/- ---------------------------------------------------------------------------
C10, C3 : delivery attempts of the forwarding sinks
--------------------------------------------------------------------------- -/

/-- C10: an empty metrics list makes `send_to_external_influxdb` return
True at once, with no HTTP request and no fallback attempt. -/
theorem empty_metrics_forward_true (localOffMin : Int) (nowIso : String)
    (envSeq : Nat → Except String Nat) (genv : GrafanaEnv) :
    send_to_external_influxdb localOffMin nowIso envSeq genv [] =
      ⟨true, [], []⟩ := rfl

/-- Counterexample to C3 as stated: on a one-record metrics list whose
first POST is answered with status 500 and whose second POST is answered
with status 204, `send_to_external_influxdb` performs two POSTs (and
returns True), so the sink does not perform at most one delivery attempt. -/
theorem forwarder_two_posts_counterexample :
    ¬ ((send_to_external_influxdb 0 "2024-01-01T00:00:00"
          (fun k => if k = 0 then .ok 500 else .ok 204)
          ⟨.ok 200, fun _ => .ok 200⟩
          [⟨some "backup.files", some "trust-server", some 42,
            some "2024-01-15T10:30:00Z"⟩]).influxPosts.length ≤ 1) ∧
    (send_to_external_influxdb 0 "2024-01-01T00:00:00"
        (fun k => if k = 0 then .ok 500 else .ok 204)
        ⟨.ok 200, fun _ => .ok 200⟩
        [⟨some "backup.files", some "trust-server", some 42,
          some "2024-01-15T10:30:00Z"⟩]).result = true := by
  constructor
  · decide
  · decide

theorem tryEndpoints_posts_le (envSeq : Nat → Except String Nat)
    (data : String) :
    ∀ (eps : List String) (k : Nat),
    (tryEndpoints envSeq data k eps).2.length ≤ eps.length := by
  intro eps
  induction eps with
  | nil => intro k; simp [tryEndpoints]
  | cons ep rest ih =>
    intro k
    unfold tryEndpoints
    cases h : envSeq k with
    | ok status =>
      by_cases hs : status = 204
      · simp [hs]
      · simp only [hs, if_false, List.length_cons]
        exact Nat.succ_le_succ (ih (k + 1))
    | error e =>
      simp only [List.length_cons]
      exact Nat.succ_le_succ (ih (k + 1))

/-- C3 amended: the bridge HTTP sink `send_to_influxdb` performs exactly
one POST per call and reports failure without retrying; the forwarder sink
`send_to_external_influxdb`, however, retries internally — it attempts up
to three write endpoints in order (stopping at the first 204) before
falling back to the Grafana annotation path. -/
theorem http_sink_attempts_bounded :
    (∀ (resp : Except String Nat) (line : String),
      (send_to_influxdb resp line).2.length = 1) ∧
    (∀ (lo : Int) (nowIso : String) (envSeq : Nat → Except String Nat)
      (genv : GrafanaEnv) (metrics : List Metric),
      (send_to_external_influxdb lo nowIso envSeq genv
        metrics).influxPosts.length ≤ 3) := by
  constructor
  · intro resp line
    rfl
  · intro lo nowIso envSeq genv metrics
    unfold send_to_external_influxdb
    split_ifs with h
    · simp
    · cases hm : metrics.mapM (create_line_protocol lo nowIso) with
      | error e => simp
      | ok lines =>
        have hb := tryEndpoints_posts_le envSeq
          (String.intercalate "\n" lines) endpoints_to_try 0
        by_cases hr : (tryEndpoints envSeq (String.intercalate "\n" lines) 0
            endpoints_to_try).1
        · simpa [hr] using hb
        · simpa [hr] using hb

/- ---------------------------------------------------------------------------
C5 : totality of the encoders
--------------------------------------------------------------------------- -/

/-- Counterexample to C5 as stated: `create_line_protocol` does not return
an encoded line for every input record — on a record without a
`measurement` key it raises `KeyError`. -/
theorem create_line_protocol_raises_counterexample :
    create_line_protocol 0 "2024-01-01T00:00:00"
      ⟨none, some "trust-server", some 1, some "2024-01-15T10:30:00Z"⟩ =
      .error .keyError := rfl

/-- C5 amended: both encoders are pure, deterministic functions of their
explicit inputs (including the clock reading used when a record has no
time); `riemann_event_to_influx_line` is total; `create_line_protocol`
returns an encoded line for every record that has a `measurement` key and a
parseable ISO-8601 time value, raises `KeyError` exactly when the
measurement key is absent, and raises `ValueError` exactly when the time
string does not parse. -/
theorem create_line_protocol_totality_characterized :
    (∀ (lo : Int) (nowIso : String) (m : Metric) (meas : String),
      m.measurement = some meas →
      (fromisoformat (timeArg nowIso m)).isSome = true →
      ∃ line, create_line_protocol lo nowIso m = .ok line) ∧
    (∀ (lo : Int) (nowIso : String) (m : Metric),
      m.measurement = none →
      create_line_protocol lo nowIso m = .error .keyError) ∧
    (∀ (lo : Int) (nowIso : String) (m : Metric) (meas : String),
      m.measurement = some meas →
      fromisoformat (timeArg nowIso m) = none →
      create_line_protocol lo nowIso m = .error .valueError) := by
  refine ⟨?_, ?_, ?_⟩
  · intro lo nowIso m meas hm ht
    rcases Option.isSome_iff_exists.mp ht with ⟨dt, hdt⟩
    simp only [timeArg] at hdt
    simp only [create_line_protocol, hm, hdt]
    exact ⟨_, rfl⟩
  · intro lo nowIso m hm
    simp only [create_line_protocol, hm]
  · intro lo nowIso m meas hm ht
    simp only [timeArg] at ht
    simp only [create_line_protocol, hm, ht]

/-- Witness for C5: the totality clause at a concrete well-formed record. -/
theorem create_line_protocol_totality_witness :
    ∃ line, create_line_protocol 0 "2024-01-01T00:00:00"
      ⟨some "backup.size", some "trust", some 7,
        some "2024-01-15T10:30:00Z"⟩ = .ok line :=
  create_line_protocol_totality_characterized.1 0 "2024-01-01T00:00:00"
    ⟨some "backup.size", some "trust", some 7,
      some "2024-01-15T10:30:00Z"⟩ "backup.size" rfl (by decide)

/- ---------------------------------------------------------------------------
C8 : one line of fixed shape per sample
--------------------------------------------------------------------------- -/

theorem cleanMeasurement_no_newline (s : String) :
    '\n' ∉ (cleanMeasurement s).data := by
  intro h
  unfold cleanMeasurement at h
  have hk := List.of_mem_filter h
  exact absurd hk (by decide)

theorem replaceChar_no_newline (a b : Char) (s : String) (hb : b ≠ '\n')
    (hs : '\n' ∉ s.data) : '\n' ∉ (replaceChar a b s).data := by
  intro h
  unfold replaceChar at h
  rcases List.mem_map.mp h with ⟨c, hc, heq⟩
  by_cases hca : c = a
  · rw [if_pos hca] at heq
    exact hb heq
  · rw [if_neg hca] at heq
    exact hs (heq ▸ hc)

/-- C8: each line-protocol encoder produces, per sample, exactly one line
(no embedded newline, given newline-free host and measurement inputs) of
the shape `<sanitized-name>,host=<host> value=<value> <timestamp>`, where
the timestamp token is the decimal rendering of an integer count of
nanoseconds since the epoch (`int` of the epoch seconds times 10^9). -/
theorem line_protocol_one_line_per_sample :
    (∀ (service host : String) (metric ts : ℚ), '\n' ∉ host.data →
      riemann_event_to_influx_line service host metric ts =
        cleanMeasurement service ++ ",host=" ++ host ++ " value=" ++
          pyStr metric ++ " " ++ intStr (pyInt (ts * 1000000000)) ∧
      '\n' ∉ (riemann_event_to_influx_line service host metric ts).data) ∧
    (∀ (lo : Int) (nowIso : String) (m : Metric) (meas line : String),
      m.measurement = some meas → '\n' ∉ meas.data →
      '\n' ∉ (m.host.getD "trust-server").data →
      create_line_protocol lo nowIso m = .ok line →
      ∃ dt, fromisoformat (timeArg nowIso m) = some dt ∧
        line = replaceChar '.' '_' meas ++ ",host=" ++
          m.host.getD "trust-server" ++ " value=" ++
          pyStr (m.value.getD 0) ++ " " ++
          intStr (pyInt (pyTimestamp dt lo * 1000000000)) ∧
        '\n' ∉ line.data) := by
  constructor
  · intro service host metric ts hh
    refine ⟨rfl, ?_⟩
    intro hmem
    unfold riemann_event_to_influx_line at hmem
    simp only [String.data_append, List.mem_append] at hmem
    rcases hmem with (((((h | h) | h) | h) | h) | h) | h
    · exact cleanMeasurement_no_newline service h
    · revert h; decide
    · exact hh h
    · revert h; decide
    · exact pyStr_no_newline metric h
    · revert h; decide
    · exact intStr_no_newline _ h
  · intro lo nowIso m meas line hm hmeas hhost hok
    have hok2 := hok
    simp only [create_line_protocol, hm] at hok2
    cases hf : fromisoformat (timeArg nowIso m) with
    | none =>
      simp only [timeArg] at hf
      rw [hf] at hok2
      exact absurd hok2 (by simp)
    | some dt =>
      have hf2 := hf
      simp only [timeArg] at hf2
      rw [hf2] at hok2
      refine ⟨dt, rfl, ?_, ?_⟩
      · exact (Except.ok.injEq _ _ ▸ hok2).symm
      · have hline : line = replaceChar '.' '_' meas ++ ",host=" ++
            m.host.getD "trust-server" ++ " value=" ++
            pyStr (m.value.getD 0) ++ " " ++
            intStr (pyInt (pyTimestamp dt lo * 1000000000)) :=
          (Except.ok.injEq _ _ ▸ hok2).symm
        rw [hline]
        intro hmem
        simp only [String.data_append, List.mem_append] at hmem
        rcases hmem with (((((h | h) | h) | h) | h) | h) | h
        · exact replaceChar_no_newline '.' '_' meas (by decide) hmeas h
        · revert h; decide
        · exact hhost h
        · revert h; decide
        · exact pyStr_no_newline _ h
        · revert h; decide
        · exact intStr_no_newline _ h

/-- Witness for C8: the bridge encoder clause at a concrete sample. -/
theorem line_protocol_one_line_per_sample_witness :
    riemann_event_to_influx_line "cpu" "trust" 1 0 =
      cleanMeasurement "cpu" ++ ",host=" ++ "trust" ++ " value=" ++
        pyStr 1 ++ " " ++ intStr (pyInt (0 * 1000000000)) ∧
    '\n' ∉ (riemann_event_to_influx_line "cpu" "trust" 1 0).data :=
  line_protocol_one_line_per_sample.1 "cpu" "trust" 1 0 (by decide)

/- ---------------------------------------------------------------------------
graphrag-monitor.py / system-monitor.py : service-health probes
--------------------------------------------------------------------------- -/

/-- One event as passed to the `send_to_riemann` helper of
graphrag-monitor.py and system-monitor.py: service name, metric value and
state (the description, host, time and ttl fields carry no claim-relevant
information). -/
structure ProbeEvent where
  service : String
  metric : ℚ
  state : String
  deriving DecidableEq, Repr

/-- `monitor_ollama` of graphrag-monitor.py (lines 37-67).  `versionResp`
is the outcome of the version GET (status code, or the message of the
raised requests exception), `elapsedMs` the measured round-trip time in
milliseconds, `versionJson` the outcome of parsing the response body, and
`tags` the combined outcome of the model-tags GET and parse (status code
and model count; the inner try swallows its exceptions).  An exception
after the 200 branch started emits an additional critical status event
through the outer except branch. -/
def monitor_ollama (versionResp : Except String Nat) (elapsedMs : ℚ)
    (versionJson : Except String Unit) (tags : Except String (Nat × Nat)) :
    List ProbeEvent :=
  match versionResp with
  | .error _ => [⟨"ollama status", 0, "critical"⟩]
  | .ok status =>
    if status = 200 then
      [⟨"ollama status", 1, "ok"⟩, ⟨"ollama response-time", elapsedMs, "ok"⟩] ++
        (match versionJson with
         | .error _ => [⟨"ollama status", 0, "critical"⟩]
         | .ok _ =>
           match tags with
           | .ok (ts, count) =>
             if ts = 200 then [⟨"ollama models-count", (count : ℚ), "ok"⟩]
             else []
           | .error _ => [])
    else [⟨"ollama status", 0, "critical"⟩]

/-- `monitor_graphrag` of graphrag-monitor.py (lines 69-86): status 200
emits status 1 ok plus the response time; any other status emits 0 with
state warning; a raised exception emits 0 with state critical. -/
def monitor_graphrag (resp : Except String Nat) (elapsedMs : ℚ) :
    List ProbeEvent :=
  match resp with
  | .error _ => [⟨"graphrag status", 0, "critical"⟩]
  | .ok status =>
    if status = 200 then
      [⟨"graphrag status", 1, "ok"⟩, ⟨"graphrag response-time", elapsedMs, "ok"⟩]
    else [⟨"graphrag status", 0, "warning"⟩]

/-- `get_alfresco_metrics` of system-monitor.py (lines 150-167): status 200
emits status 1 ok plus the response time; any other status and any raised
exception emit 0 with state `down`. -/
def get_alfresco_metrics (resp : Except String Nat) (elapsedMs : ℚ) :
    List ProbeEvent :=
  match resp with
  | .error _ => [⟨"alfresco status", 0, "down"⟩]
  | .ok status =>
    if status = 200 then
      [⟨"alfresco status", 1, "ok"⟩, ⟨"alfresco response-time", elapsedMs, "ok"⟩]
    else [⟨"alfresco status", 0, "down"⟩]

/-- Counterexample to C6 as stated: on a connection failure the Alfresco
probe emits its status event with state `down`, not state `critical`. -/
theorem alfresco_failure_state_counterexample :
    get_alfresco_metrics (.error "ConnectionError") 0 =
      [⟨"alfresco status", 0, "down"⟩] ∧
    ("down" : String) ≠ "critical" := ⟨rfl, by decide⟩

/-- C6 amended: on a raised exception the Ollama and GraphRAG probes emit
status 0 with state critical, while the Alfresco probe emits status 0 with
state `down` (as it also does on a non-200 status); on success (status
200) every probe emits status 1 with state ok followed by the round-trip
latency in milliseconds. -/
theorem probe_status_events :
    (∀ (msg : String) (ms : ℚ) (vj : Except String Unit)
      (tg : Except String (Nat × Nat)),
      monitor_ollama (.error msg) ms vj tg =
        [⟨"ollama status", 0, "critical"⟩]) ∧
    (∀ (msg : String) (ms : ℚ),
      monitor_graphrag (.error msg) ms =
        [⟨"graphrag status", 0, "critical"⟩]) ∧
    (∀ (msg : String) (ms : ℚ),
      get_alfresco_metrics (.error msg) ms =
        [⟨"alfresco status", 0, "down"⟩]) ∧
    (∀ (ms : ℚ) (vj : Except String Unit) (tg : Except String (Nat × Nat)),
      (monitor_ollama (.ok 200) ms vj tg).take 2 =
        [⟨"ollama status", 1, "ok"⟩, ⟨"ollama response-time", ms, "ok"⟩]) ∧
    (∀ ms : ℚ, monitor_graphrag (.ok 200) ms =
      [⟨"graphrag status", 1, "ok"⟩, ⟨"graphrag response-time", ms, "ok"⟩]) ∧
    (∀ ms : ℚ, get_alfresco_metrics (.ok 200) ms =
      [⟨"alfresco status", 1, "ok"⟩, ⟨"alfresco response-time", ms, "ok"⟩]) := by
  refine ⟨fun _ _ _ _ => rfl, fun _ _ => rfl, fun _ _ => rfl, ?_,
    fun _ => rfl, fun _ => rfl⟩
  intro ms vj tg
  rfl

/- ---------------------------------------------------------------------------
system-monitor.py : get_system_metrics and the fraction bounds
--------------------------------------------------------------------------- -/

/-- The result of one `psutil.disk_usage` call: percent used, free bytes,
used bytes. -/
structure DiskUsage where
  percent : ℚ
  free : ℚ
  used : ℚ
  deriving DecidableEq, Repr

/-- One entry of `psutil.disk_partitions()` together with the outcome of
`psutil.disk_usage` on its mountpoint (the per-disk try/except skips
entries whose usage read raises). -/
structure DiskPart where
  mountpoint : String
  usage : Except String DiskUsage
  deriving Repr

/-- One reading of the psutil values consumed by `get_system_metrics` of
system-monitor.py (lines 42-76). -/
structure SysSnapshot where
  cpu_percent : ℚ
  mem_percent : ℚ
  mem_available : ℚ
  mem_used : ℚ
  disks : List DiskPart
  load1 : ℚ
  load5 : ℚ
  load15 : ℚ
  ncpu : ℕ
  net_sent : ℚ
  net_recv : ℚ
  deriving Repr

/-- The mountpoint-to-service renaming of system-monitor.py line 54: the
root mountpoint `/` becomes `root` (its single slash replaced by the word
root); any other mountpoint has its slashes replaced by underscores. -/
def diskName (mp : String) : String :=
  if mp = "/" then "root" else replaceChar '/' '_' mp

/-- The per-mount loop of `get_system_metrics` (lines 52-61): three events
per readable mount — usage fraction, free bytes, used bytes; a mount whose
usage read raises is skipped. -/
def diskEvents : List DiskPart → List ProbeEvent
  | [] => []
  | d :: rest =>
    match d.usage with
    | .error _ => diskEvents rest
    | .ok u =>
      ⟨"disk " ++ diskName d.mountpoint, u.percent / 100, "ok"⟩ ::
        ⟨"disk " ++ diskName d.mountpoint ++ " free", u.free, "ok"⟩ ::
        ⟨"disk " ++ diskName d.mountpoint ++ " used", u.used, "ok"⟩ ::
        diskEvents rest

/-- `get_system_metrics` of system-monitor.py (lines 42-76): cpu and memory
fractions, absolute memory numbers, the per-mount disk events, the three
load averages divided by the core count, and the network byte counters. -/
def get_system_metrics (s : SysSnapshot) : List ProbeEvent :=
  [⟨"cpu", s.cpu_percent / 100, "ok"⟩,
   ⟨"memory", s.mem_percent / 100, "ok"⟩,
   ⟨"memory available", s.mem_available, "ok"⟩,
   ⟨"memory used", s.mem_used, "ok"⟩] ++
  diskEvents s.disks ++
  [⟨"load", s.load1 / (s.ncpu : ℚ), "ok"⟩,
   ⟨"load 5min", s.load5 / (s.ncpu : ℚ), "ok"⟩,
   ⟨"load 15min", s.load15 / (s.ncpu : ℚ), "ok"⟩,
   ⟨"network bytes sent", s.net_sent, "ok"⟩,
   ⟨"network bytes recv", s.net_recv, "ok"⟩]

/-- Counterexample to C9 as stated: with a 1-minute load average of 8 on 4
cores — values psutil can report on a real host — the emitted normalized
load metric is 2, outside [0,1]. -/
theorem load_fraction_exceeds_one_counterexample :
    ∃ e ∈ get_system_metrics ⟨37, 50, 1000, 2000, [], 8, 8, 8, 4, 0, 0⟩,
      e.service = "load" ∧ ¬ (0 ≤ e.metric ∧ e.metric ≤ 1) := by
  refine ⟨⟨"load", (8 : ℚ) / ((4 : ℕ) : ℚ), "ok"⟩, ?_, rfl, ?_⟩
  · simp [get_system_metrics, diskEvents]
  · intro h
    have : ((8 : ℚ) / ((4 : ℕ) : ℚ)) = 2 := by norm_num
    rw [this] at h
    exact absurd h.2 (by norm_num)

theorem diskEvent_mem (disks : List DiskPart) (d : DiskPart) (u : DiskUsage)
    (hd : d ∈ disks) (hu : d.usage = .ok u) :
    (⟨"disk " ++ diskName d.mountpoint, u.percent / 100, "ok"⟩ : ProbeEvent) ∈
      diskEvents disks := by
  induction disks with
  | nil => cases hd
  | cons x rest ih =>
    rcases List.mem_cons.mp hd with h | h
    · subst h
      simp only [diskEvents, hu]
      exact List.mem_cons_self _ _
    · cases hx : x.usage with
      | error e =>
        simp only [diskEvents, hx]
        exact ih h
      | ok u2 =>
        simp only [diskEvents, hx]
        exact List.mem_cons_of_mem _
          (List.mem_cons_of_mem _ (List.mem_cons_of_mem _ (ih h)))

/-- C9 amended: the cpu fraction, memory fraction and every per-mount disk
usage fraction emitted by `get_system_metrics` lie in [0,1] (given that
psutil reports percentages in [0,100]); the 1/5/15-minute loads normalized
by core count are nonnegative but, unlike the claim, carry no upper bound —
a loaded host makes them exceed 1. -/
theorem system_metrics_fraction_bounds (s : SysSnapshot)
    (hc0 : 0 ≤ s.cpu_percent) (hc1 : s.cpu_percent ≤ 100)
    (hm0 : 0 ≤ s.mem_percent) (hm1 : s.mem_percent ≤ 100)
    (hd : ∀ d ∈ s.disks, ∀ u, d.usage = Except.ok u →
      0 ≤ u.percent ∧ u.percent ≤ 100)
    (hl1 : 0 ≤ s.load1) (hl5 : 0 ≤ s.load5) (hl15 : 0 ≤ s.load15) :
    ((⟨"cpu", s.cpu_percent / 100, "ok"⟩ : ProbeEvent) ∈
        get_system_metrics s ∧
      0 ≤ s.cpu_percent / 100 ∧ s.cpu_percent / 100 ≤ 1) ∧
    ((⟨"memory", s.mem_percent / 100, "ok"⟩ : ProbeEvent) ∈
        get_system_metrics s ∧
      0 ≤ s.mem_percent / 100 ∧ s.mem_percent / 100 ≤ 1) ∧
    (∀ d ∈ s.disks, ∀ u, d.usage = Except.ok u →
      (⟨"disk " ++ diskName d.mountpoint, u.percent / 100, "ok"⟩ :
          ProbeEvent) ∈ get_system_metrics s ∧
        0 ≤ u.percent / 100 ∧ u.percent / 100 ≤ 1) ∧
    ((⟨"load", s.load1 / (s.ncpu : ℚ), "ok"⟩ : ProbeEvent) ∈
        get_system_metrics s ∧
      0 ≤ s.load1 / (s.ncpu : ℚ) ∧ 0 ≤ s.load5 / (s.ncpu : ℚ) ∧
      0 ≤ s.load15 / (s.ncpu : ℚ)) := by
  refine ⟨⟨?_, ?_, ?_⟩, ⟨?_, ?_, ?_⟩, ?_, ⟨?_, ?_, ?_, ?_⟩⟩
  · simp [get_system_metrics]
  · exact div_nonneg hc0 (by norm_num)
  · rw [div_le_one (by norm_num)]
    exact hc1
  · simp [get_system_metrics]
  · exact div_nonneg hm0 (by norm_num)
  · rw [div_le_one (by norm_num)]
    exact hm1
  · intro d hdm u hu
    refine ⟨?_, ?_, ?_⟩
    · have := diskEvent_mem s.disks d u hdm hu
      simp [get_system_metrics]
      tauto
    · exact div_nonneg (hd d hdm u hu).1 (by norm_num)
    · rw [div_le_one (by norm_num)]
      exact (hd d hdm u hu).2
  · simp [get_system_metrics]
  · exact div_nonneg hl1 (Nat.cast_nonneg _)
  · exact div_nonneg hl5 (Nat.cast_nonneg _)
  · exact div_nonneg hl15 (Nat.cast_nonneg _)

/-- Witness for C9: the normalized-load clause of the bounds theorem at a
concrete snapshot. -/
theorem system_metrics_fraction_bounds_witness :
    (⟨"load", (8 : ℚ) / ((4 : ℕ) : ℚ), "ok"⟩ : ProbeEvent) ∈
      get_system_metrics ⟨37, 50, 1000, 2000, [], 8, 8, 8, 4, 0, 0⟩ :=
  (system_metrics_fraction_bounds ⟨37, 50, 1000, 2000, [], 8, 8, 8, 4, 0, 0⟩
    (by decide) (by decide) (by decide) (by decide) (by simp)
    (by decide) (by decide) (by decide)).2.2.2.1
